import Mathlib

/-!
Verification of the HRMS paginated API extraction script
(`hrms_api_data_extraction.py`).

The script authenticates against a token endpoint, loops fetching pages
from a data endpoint, reshapes each page's records into rows, accumulates
them into one result set, and finally writes the accumulated rows to an
object-storage sink (plus a best-effort log upload).

This file is a shallow embedding of that control flow.  External HTTP
traffic is modelled as traces: a list of token-endpoint responses
(consumed one per `get_new_access_token` call) and a list of data-endpoint
responses (consumed one per page fetch).  Python exceptions that the
script does not catch are modelled as distinguished crash outcomes;
a trace too short to drive the loop to an exit yields the model-only
outcome `starved`.
-/

/-- One response from the token endpoint, as the script reads it:
the HTTP `status_code` and the JSON body's `access_token` field
(`none` when the field is absent from the body). -/
structure TokenResponse where
  status_code : Nat
  access_token : Option String
  deriving DecidableEq, Repr

/-- Outcome of one `get_new_access_token` call.
`token s`: the function returned the (truthy, hence non-empty) token `s`.
`refreshFailed`: the function returned `None` (the non-200 branch).
`unboundLocal`: the function raised `UnboundLocalError` — on the
status-200-but-no-usable-token branch the local `ACCESS_TOKEN` is never
assigned (the `global ACCESS_TOKEN` line is commented out), so the final
`return ACCESS_TOKEN` raises. -/
inductive AuthResult where
  | token (s : String)
  | refreshFailed
  | unboundLocal
  deriving DecidableEq, Repr

/-- `get_new_access_token(token_url, token_payload, token_auth)`:
issues exactly one POST to the token endpoint (the single consumed
`TokenResponse`).  If `status_code == 200` it reads
`json().get("access_token")`; a truthy value (a non-empty string) is
assigned and returned, otherwise only a warning is logged and the final
`return ACCESS_TOKEN` raises `UnboundLocalError`.  On any non-200 status
it assigns `ACCESS_TOKEN = None` and returns that `None`. -/
def get_new_access_token (r : TokenResponse) : AuthResult :=
  if r.status_code = 200 then
    match r.access_token with
    | some s => if s = "" then .unboundLocal else .token s
    | none => .unboundLocal
  else
    .refreshFailed

/-- Whether a `get_new_access_token` call raises (escapes by exception)
rather than returning a value. -/
def raisesUnbound : AuthResult → Bool
  | .unboundLocal => true
  | _ => false

/-- One record of a page's record container
(`root → EmployeeMaster → EmployeeMasterData[i]`).  `basicDetail` is the
value at the nested keys `BasicDetails → BasicDetail` (the row payload,
kept opaque as a string), or `none` when those keys are missing, in which
case the script's unguarded lookup raises `KeyError`. -/
structure ApiRecord where
  basicDetail : Option String
  deriving DecidableEq, Repr

/-- One response from the data endpoint: the HTTP `status_code`, the
record container at `json()['root']['EmployeeMaster']['EmployeeMasterData']`
(`none` when that nested path is missing, which the script catches as
`KeyError`), and `json().get('isLoadComplete', False)`. -/
structure ApiResponse where
  status_code : Nat
  records : Option (List ApiRecord)
  isLoadComplete : Bool
  deriving DecidableEq, Repr

/-- One row of the accumulated result set: the record payload plus the
two columns the script adds (`isLoadCompleted` from the page's flag and
`EXTRACT_TIMESTAMP` from the run timestamp). -/
structure Row where
  data : String
  isLoadCompleted : Bool
  extractTimestamp : String
  deriving DecidableEq, Repr

/-- The per-page record loop
(`rowData = api_response_body[rowCount]['BasicDetails']['BasicDetail']`):
collects each record's payload in order, or `none` when some record lacks
the nested keys — that lookup sits outside the `try/except KeyError`
block, so the exception is unhandled. -/
def processRecords : List ApiRecord → Option (List String)
  | [] => some []
  | r :: rs =>
    match r.basicDetail with
    | none => none
    | some d => (processRecords rs).map (fun l => d :: l)

/-- Tag a page's payloads with the page's `isLoadComplete` flag and
the run timestamp, one row per record (the two added DataFrame columns). -/
def pageRows (datas : List String) (complete : Bool) (ts : String) : List Row :=
  datas.map (fun d => ⟨d, complete, ts⟩)

/-- What the loop body does with a response once past the 401 handler. -/
inductive PageStep where
  | fatal (k : Bool)
  | crash
  | stop
  | next (rows : List Row)
  deriving DecidableEq, Repr

/-- How the pagination loop exits (the `break` sites / normal end).
`normal`: `isLoadComplete` true and the page carried zero rows.
`httpError`: a response with status outside `[200, 201]` after the 401
handler (this includes a second 401 on the retried fetch).
`authFail`: a mid-run `get_new_access_token` returned a falsy value.
`schemaError`: the record container path was missing (`KeyError` caught). -/
inductive ExitKind where
  | normal
  | httpError
  | authFail
  | schemaError
  deriving DecidableEq, Repr

/-- Result of the `while True` pagination loop.
`done k resultSet replacements fetches`: the loop exited by `break` (or
the normal stop) with exit kind `k`, the accumulated rows, the number of
mid-run credential replacements, and the number of data-endpoint fetches
issued.  `crashKeyError` / `crashUnbound`: an uncaught Python exception
escaped the loop (per-record `KeyError`, resp. `UnboundLocalError` from
`get_new_access_token`).  `starved`: the model's response trace ran out
before the loop exited (a model artifact, not script behaviour). -/
inductive LoopResult where
  | done (k : ExitKind) (resultSet : List Row) (replacements : Nat) (fetches : Nat)
  | crashKeyError
  | crashUnbound
  | starved
  deriving DecidableEq, Repr

/-- The part of the loop body after the 401 handler, for one response:
the `status_code in [200, 201]` check, the guarded record-container
lookup, the unguarded per-record extraction, and the
`isLoadComplete and df.shape[0] == 0` stop test. -/
def pageStep (ts : String) (resp : ApiResponse) : PageStep :=
  if resp.status_code = 200 ∨ resp.status_code = 201 then
    match resp.records with
    | none => .fatal false
    | some recs =>
      match processRecords recs with
      | none => .crash
      | some datas =>
        let rows := pageRows datas resp.isLoadComplete ts
        if resp.isLoadComplete ∧ rows.isEmpty then .stop
        else .next rows
  else
    .fatal true

/-- Interpret `pageStep`'s fatal flag: `true` is the generic
`Error {status}` break, `false` the `Invalid response structure` break. -/
def fatalKind : Bool → ExitKind
  | true => .httpError
  | false => .schemaError

/-- The `while True` pagination loop of `make_api_request`, driven by the
trace of data-endpoint responses (`apis`, one consumed per fetch) and the
trace of token-endpoint responses (`toks`, one consumed per mid-run
re-authentication).  State: the current bearer token `tok`, the
accumulated rows `overall`, the count `reps` of credential replacements
so far, and the count `fetches` of fetches issued so far.

Each iteration fetches one response.  On a 401 it re-authenticates: a
falsy result breaks (`authFail`), an exception propagates, otherwise the
token is replaced and the same page is fetched once more, and the retried
response flows into the ordinary status check (so a second 401 is the
generic error break).  Then: non-2xx breaks, a missing record container
breaks (`schemaError`), a record without `BasicDetails → BasicDetail`
crashes, `isLoadComplete` with zero rows stops normally, and otherwise
the page's rows (when any) are appended and the loop continues. -/
def runLoop (ts : String) : List ApiResponse → List TokenResponse → String →
    List Row → Nat → Nat → LoopResult
  | [], _, _, _, _, _ => .starved
  | resp :: rest, toks, tok, overall, reps, fetches =>
    if resp.status_code = 401 then
      match toks with
      | [] => .starved
      | tr :: toks' =>
        match get_new_access_token tr with
        | .unboundLocal => .crashUnbound
        | .refreshFailed => .done .authFail overall reps (fetches + 1)
        | .token t' =>
          match rest with
          | [] => .starved
          | resp2 :: rest2 =>
            match pageStep ts resp2 with
            | .fatal b => .done (fatalKind b) overall (reps + 1) (fetches + 2)
            | .crash => .crashKeyError
            | .stop => .done .normal overall (reps + 1) (fetches + 2)
            | .next rows =>
              runLoop ts rest2 toks' t'
                (if rows.isEmpty then overall else overall ++ rows)
                (reps + 1) (fetches + 2)
    else
      match pageStep ts resp with
      | .fatal b => .done (fatalKind b) overall reps (fetches + 1)
      | .crash => .crashKeyError
      | .stop => .done .normal overall reps (fetches + 1)
      | .next rows =>
        runLoop ts rest toks tok
          (if rows.isEmpty then overall else overall ++ rows)
          reps (fetches + 1)

/-- Overall outcome of one `make_api_request` call. -/
inductive RunOutcome where
  | noInitialToken
  | crashUnbound
  | crashKeyError
  | starved
  | loopExit (k : ExitKind)
  deriving DecidableEq, Repr

/-- Observable result of one `make_api_request` call: the outcome, the
accumulated result set at exit, the single potential sink write
(`save_to_s3_parquet` payload, `none` when the sink was not invoked),
and the credential-replacement / fetch counters. -/
structure RunResult where
  outcome : RunOutcome
  resultSet : List Row
  sinkWrite : Option (List Row)
  credReplacements : Nat
  apiFetches : Nat
  deriving DecidableEq, Repr

/-- `make_api_request`: obtain the initial token (first element of the
token trace); a falsy result returns at once, an exception propagates.
Then run the pagination loop, and — after ANY `break`, error breaks
included — invoke `save_to_s3_parquet` with the full accumulated
DataFrame iff it is non-empty (`if not overall_df.empty`).  Uncaught
exceptions from inside the loop skip the sink entirely. -/
def make_api_request (ts : String) (toks : List TokenResponse)
    (apis : List ApiResponse) : RunResult :=
  match toks with
  | [] => ⟨.starved, [], none, 0, 0⟩
  | tr :: toks' =>
    match get_new_access_token tr with
    | .unboundLocal => ⟨.crashUnbound, [], none, 0, 0⟩
    | .refreshFailed => ⟨.noInitialToken, [], none, 0, 0⟩
    | .token t =>
      match runLoop ts apis toks' t [] 0 0 with
      | .done k overall reps fetches =>
        ⟨.loopExit k, overall,
          if overall.isEmpty then none else some overall, reps, fetches⟩
      | .crashKeyError => ⟨.crashKeyError, [], none, 0, 0⟩
      | .crashUnbound => ⟨.crashUnbound, [], none, 0, 0⟩
      | .starved => ⟨.starved, [], none, 0, 0⟩

/-- Whether an outcome is an uncaught exception escaping
`make_api_request` (and hence the whole `__main__` block). -/
def outcomeCrashes : RunOutcome → Bool
  | .crashUnbound => true
  | .crashKeyError => true
  | _ => false

/-- The `__main__` block: run `make_api_request`, then call
`upload_log_to_s3`.  The second component records whether the log-upload
call is reached: an exception escaping `make_api_request` aborts the
script before it. -/
def script (ts : String) (toks : List TokenResponse)
    (apis : List ApiResponse) : RunResult × Bool :=
  let r := make_api_request ts toks apis
  (r, !outcomeCrashes r.outcome)

/-- Observable outcome of one `upload_log_to_s3` call: the exception it
lets escape, if any, and the error it logs, if any. -/
structure UploadOutcome where
  propagated : Option String
  loggedError : Option String
  deriving DecidableEq, Repr

/-- `upload_log_to_s3`: the whole body — opening the log file and the
`put_object` write — runs under `try`, and the bare `except Exception`
clause turns any error `e` raised there into a `logger.error` line.
`res` is the outcome of that body: `ok` or an error `e`. -/
def upload_log_to_s3 (res : Except String Unit) : UploadOutcome :=
  match res with
  | .ok _ => ⟨none, none⟩
  | .error e => ⟨none, some e⟩

/-! ### Unfolding lemmas for `pageStep` and `runLoop` -/

theorem pageStep_http (ts : String) (resp : ApiResponse)
    (hst : ¬(resp.status_code = 200 ∨ resp.status_code = 201)) :
    pageStep ts resp = .fatal true := by
  rw [pageStep, if_neg hst]

theorem pageStep_schema (ts : String) (resp : ApiResponse)
    (hst : resp.status_code = 200 ∨ resp.status_code = 201)
    (hrec : resp.records = none) :
    pageStep ts resp = .fatal false := by
  rw [pageStep, if_pos hst, hrec]

theorem pageStep_crash (ts : String) (resp : ApiResponse) (recs : List ApiRecord)
    (hst : resp.status_code = 200 ∨ resp.status_code = 201)
    (hrec : resp.records = some recs)
    (hproc : processRecords recs = none) :
    pageStep ts resp = .crash := by
  rw [pageStep, if_pos hst, hrec]
  simp [hproc]

theorem pageStep_stop (ts : String) (resp : ApiResponse) (recs : List ApiRecord)
    (hst : resp.status_code = 200 ∨ resp.status_code = 201)
    (hrec : resp.records = some recs)
    (hproc : processRecords recs = some [])
    (hcomp : resp.isLoadComplete = true) :
    pageStep ts resp = .stop := by
  rw [pageStep, if_pos hst, hrec]
  simp [hproc, pageRows, hcomp]

theorem pageStep_next (ts : String) (resp : ApiResponse) (recs : List ApiRecord)
    (datas : List String)
    (hst : resp.status_code = 200 ∨ resp.status_code = 201)
    (hrec : resp.records = some recs)
    (hproc : processRecords recs = some datas)
    (hne : datas ≠ []) :
    pageStep ts resp = .next (pageRows datas resp.isLoadComplete ts) := by
  rw [pageStep, if_pos hst, hrec]
  simp [hproc, pageRows, hne]

theorem runLoop_cons_fatal (ts : String) (resp : ApiResponse)
    (rest : List ApiResponse) (toks : List TokenResponse) (tok : String)
    (overall : List Row) (reps fetches : Nat) (b : Bool)
    (h401 : resp.status_code ≠ 401) (hp : pageStep ts resp = .fatal b) :
    runLoop ts (resp :: rest) toks tok overall reps fetches
      = .done (fatalKind b) overall reps (fetches + 1) := by
  rw [runLoop.eq_def]
  simp [h401, hp]

theorem runLoop_cons_crash (ts : String) (resp : ApiResponse)
    (rest : List ApiResponse) (toks : List TokenResponse) (tok : String)
    (overall : List Row) (reps fetches : Nat)
    (h401 : resp.status_code ≠ 401) (hp : pageStep ts resp = .crash) :
    runLoop ts (resp :: rest) toks tok overall reps fetches = .crashKeyError := by
  rw [runLoop.eq_def]
  simp [h401, hp]

theorem runLoop_cons_stop (ts : String) (resp : ApiResponse)
    (rest : List ApiResponse) (toks : List TokenResponse) (tok : String)
    (overall : List Row) (reps fetches : Nat)
    (h401 : resp.status_code ≠ 401) (hp : pageStep ts resp = .stop) :
    runLoop ts (resp :: rest) toks tok overall reps fetches
      = .done .normal overall reps (fetches + 1) := by
  rw [runLoop.eq_def]
  simp [h401, hp]

theorem runLoop_cons_next (ts : String) (resp : ApiResponse)
    (rest : List ApiResponse) (toks : List TokenResponse) (tok : String)
    (overall : List Row) (reps fetches : Nat) (rows : List Row)
    (h401 : resp.status_code ≠ 401) (hp : pageStep ts resp = .next rows) :
    runLoop ts (resp :: rest) toks tok overall reps fetches
      = runLoop ts rest toks tok
          (if rows.isEmpty then overall else overall ++ rows) reps (fetches + 1) := by
  rw [runLoop.eq_def]
  simp [h401, hp]

theorem runLoop_cons_401_unbound (ts : String) (resp : ApiResponse)
    (rest : List ApiResponse) (tr : TokenResponse) (toks' : List TokenResponse)
    (tok : String) (overall : List Row) (reps fetches : Nat)
    (h401 : resp.status_code = 401)
    (ht : get_new_access_token tr = .unboundLocal) :
    runLoop ts (resp :: rest) (tr :: toks') tok overall reps fetches
      = .crashUnbound := by
  rw [runLoop.eq_def]
  simp [h401, ht]

theorem runLoop_cons_401_authFail (ts : String) (resp : ApiResponse)
    (rest : List ApiResponse) (tr : TokenResponse) (toks' : List TokenResponse)
    (tok : String) (overall : List Row) (reps fetches : Nat)
    (h401 : resp.status_code = 401)
    (ht : get_new_access_token tr = .refreshFailed) :
    runLoop ts (resp :: rest) (tr :: toks') tok overall reps fetches
      = .done .authFail overall reps (fetches + 1) := by
  rw [runLoop.eq_def]
  simp [h401, ht]

theorem runLoop_cons_401_retry_fatal (ts : String) (resp resp2 : ApiResponse)
    (rest2 : List ApiResponse) (tr : TokenResponse) (toks' : List TokenResponse)
    (tok t' : String) (overall : List Row) (reps fetches : Nat) (b : Bool)
    (h401 : resp.status_code = 401)
    (ht : get_new_access_token tr = .token t')
    (hp : pageStep ts resp2 = .fatal b) :
    runLoop ts (resp :: resp2 :: rest2) (tr :: toks') tok overall reps fetches
      = .done (fatalKind b) overall (reps + 1) (fetches + 2) := by
  rw [runLoop.eq_def]
  simp [h401, ht, hp]

theorem runLoop_cons_401_retry_crash (ts : String) (resp resp2 : ApiResponse)
    (rest2 : List ApiResponse) (tr : TokenResponse) (toks' : List TokenResponse)
    (tok t' : String) (overall : List Row) (reps fetches : Nat)
    (h401 : resp.status_code = 401)
    (ht : get_new_access_token tr = .token t')
    (hp : pageStep ts resp2 = .crash) :
    runLoop ts (resp :: resp2 :: rest2) (tr :: toks') tok overall reps fetches
      = .crashKeyError := by
  rw [runLoop.eq_def]
  simp [h401, ht, hp]

theorem runLoop_cons_401_retry_stop (ts : String) (resp resp2 : ApiResponse)
    (rest2 : List ApiResponse) (tr : TokenResponse) (toks' : List TokenResponse)
    (tok t' : String) (overall : List Row) (reps fetches : Nat)
    (h401 : resp.status_code = 401)
    (ht : get_new_access_token tr = .token t')
    (hp : pageStep ts resp2 = .stop) :
    runLoop ts (resp :: resp2 :: rest2) (tr :: toks') tok overall reps fetches
      = .done .normal overall (reps + 1) (fetches + 2) := by
  rw [runLoop.eq_def]
  simp [h401, ht, hp]

theorem runLoop_cons_401_retry_next (ts : String) (resp resp2 : ApiResponse)
    (rest2 : List ApiResponse) (tr : TokenResponse) (toks' : List TokenResponse)
    (tok t' : String) (overall : List Row) (reps fetches : Nat) (rows : List Row)
    (h401 : resp.status_code = 401)
    (ht : get_new_access_token tr = .token t')
    (hp : pageStep ts resp2 = .next rows) :
    runLoop ts (resp :: resp2 :: rest2) (tr :: toks') tok overall reps fetches
      = runLoop ts rest2 toks' t'
          (if rows.isEmpty then overall else overall ++ rows)
          (reps + 1) (fetches + 2) := by
  rw [runLoop.eq_def]
  simp [h401, ht, hp]

/-- Along any `break`-or-normal exit of the pagination loop, the
accumulated rows only grow (the result set extends the initial
accumulation), and the credential is replaced at most once per fetch
issued. -/
theorem runLoop_done_grow (ts : String) (apis : List ApiResponse)
    (toks : List TokenResponse) (tok : String) (overall : List Row)
    (reps fetches : Nat) :
    ∀ k ov reps' fetches',
      runLoop ts apis toks tok overall reps fetches = .done k ov reps' fetches' →
      (∃ tl, ov = overall ++ tl) ∧ reps' + fetches ≤ reps + fetches' := by
  induction apis, toks, tok, overall, reps, fetches using runLoop.induct ts with
  | case1 toks tok overall reps fetches =>
    intro k ov reps' fetches' h
    rw [runLoop.eq_def] at h
    simp at h
  | case2 resp rest tok overall reps fetches h401 =>
    intro k ov reps' fetches' h
    rw [runLoop.eq_def] at h
    simp [h401] at h
  | case3 resp rest tok overall reps fetches h401 tr toks' ht =>
    intro k ov reps' fetches' h
    rw [runLoop_cons_401_unbound ts resp rest tr toks' tok overall reps fetches h401 ht] at h
    exact absurd h (by simp)
  | case4 resp rest tok overall reps fetches h401 tr toks' ht =>
    intro k ov reps' fetches' h
    rw [runLoop_cons_401_authFail ts resp rest tr toks' tok overall reps fetches h401 ht] at h
    injection h with hk hov hreps hfetch
    subst hov hreps hfetch
    exact ⟨⟨[], by simp⟩, by omega⟩
  | case5 resp tok overall reps fetches h401 tr toks' t' ht =>
    intro k ov reps' fetches' h
    rw [runLoop.eq_def] at h
    simp [h401, ht] at h
  | case6 resp tok overall reps fetches h401 tr toks' t' ht resp2 rest2 b hp =>
    intro k ov reps' fetches' h
    rw [runLoop_cons_401_retry_fatal ts resp resp2 rest2 tr toks' tok t' overall reps fetches b h401 ht hp] at h
    injection h with hk hov hreps hfetch
    subst hov hreps hfetch
    exact ⟨⟨[], by simp⟩, by omega⟩
  | case7 resp tok overall reps fetches h401 tr toks' t' ht resp2 rest2 hp =>
    intro k ov reps' fetches' h
    rw [runLoop_cons_401_retry_crash ts resp resp2 rest2 tr toks' tok t' overall reps fetches h401 ht hp] at h
    exact absurd h (by simp)
  | case8 resp tok overall reps fetches h401 tr toks' t' ht resp2 rest2 hp =>
    intro k ov reps' fetches' h
    rw [runLoop_cons_401_retry_stop ts resp resp2 rest2 tr toks' tok t' overall reps fetches h401 ht hp] at h
    injection h with hk hov hreps hfetch
    subst hov hreps hfetch
    exact ⟨⟨[], by simp⟩, by omega⟩
  | case9 resp tok overall reps fetches h401 tr toks' t' ht resp2 rest2 rows hp ih =>
    intro k ov reps' fetches' h
    rw [runLoop_cons_401_retry_next ts resp resp2 rest2 tr toks' tok t' overall reps fetches rows h401 ht hp] at h
    obtain ⟨⟨tl, htl⟩, hle⟩ := ih k ov reps' fetches' h
    refine ⟨?_, by omega⟩
    by_cases he : rows.isEmpty = true
    · rw [if_pos he] at htl
      exact ⟨tl, htl⟩
    · rw [if_neg he] at htl
      exact ⟨rows ++ tl, by rw [htl, List.append_assoc]⟩
  | case10 resp rest toks tok overall reps fetches h401 b hp =>
    intro k ov reps' fetches' h
    rw [runLoop_cons_fatal ts resp rest toks tok overall reps fetches b h401 hp] at h
    injection h with hk hov hreps hfetch
    subst hov hreps hfetch
    exact ⟨⟨[], by simp⟩, by omega⟩
  | case11 resp rest toks tok overall reps fetches h401 hp =>
    intro k ov reps' fetches' h
    rw [runLoop_cons_crash ts resp rest toks tok overall reps fetches h401 hp] at h
    exact absurd h (by simp)
  | case12 resp rest toks tok overall reps fetches h401 hp =>
    intro k ov reps' fetches' h
    rw [runLoop_cons_stop ts resp rest toks tok overall reps fetches h401 hp] at h
    injection h with hk hov hreps hfetch
    subst hov hreps hfetch
    exact ⟨⟨[], by simp⟩, by omega⟩
  | case13 resp rest toks tok overall reps fetches h401 rows hp ih =>
    intro k ov reps' fetches' h
    rw [runLoop_cons_next ts resp rest toks tok overall reps fetches rows h401 hp] at h
    obtain ⟨⟨tl, htl⟩, hle⟩ := ih k ov reps' fetches' h
    refine ⟨?_, by omega⟩
    by_cases he : rows.isEmpty = true
    · rw [if_pos he] at htl
      exact ⟨tl, htl⟩
    · rw [if_neg he] at htl
      exact ⟨rows ++ tl, by rw [htl, List.append_assoc]⟩

/-! ### Claim theorems -/

/-- Claim C5, counterexample: a 2xx token-provider response (status 201)
whose body carries the token does NOT yield a credential — the code tests
`status_code == 200` only, so 201 falls into the `else` branch and the
function returns `None`. -/
theorem C5_cex :
    get_new_access_token ⟨201, some "tok"⟩ = .refreshFailed
    ∧ get_new_access_token ⟨201, some "tok"⟩ ≠ .token "tok" := by
  decide

/-- Claim C5, amended: `get_new_access_token` calls the provider once;
it returns the credential exactly when the status is 200 (not any 2xx)
and the body holds a non-empty `access_token`; on any non-200 status it
silently returns `None`; and on a 200 response whose token field is
absent or empty it raises `UnboundLocalError` instead of failing
cleanly. -/
theorem C5_amended (r : TokenResponse) :
    (∀ s, r.status_code = 200 → r.access_token = some s → s ≠ "" →
        get_new_access_token r = .token s)
    ∧ (r.status_code ≠ 200 → get_new_access_token r = .refreshFailed)
    ∧ (r.status_code = 200 → (r.access_token = none ∨ r.access_token = some "") →
        get_new_access_token r = .unboundLocal) := by
  refine ⟨?_, ?_, ?_⟩
  · intro s h200 htok hne
    rw [get_new_access_token, if_pos h200, htok]
    simp [hne]
  · intro h
    rw [get_new_access_token, if_neg h]
  · intro h200 habs
    rw [get_new_access_token, if_pos h200]
    rcases habs with h | h
    all_goals rw [h]
    all_goals simp

/-- Claim C5, witness: a 200 response carrying token `tk` yields the
credential `tk`. -/
theorem C5_amended_witness :
    get_new_access_token ⟨200, some "tk"⟩ = .token "tk" :=
  (C5_amended ⟨200, some "tk"⟩).1 "tk" rfl rfl (by decide)

/-- Claim C6, counterexample: on a 200 token-provider response with no
`access_token` field, `get_new_access_token` raises (`UnboundLocalError`
from the unassigned local) — it is not true that the function never
raises. -/
theorem C6_cex :
    raisesUnbound (get_new_access_token ⟨200, none⟩) = true := by
  decide

/-- Claim C6, amended: on a non-200 provider response the function
silently returns the falsy `None`, which the caller can only detect by
a defensive falsy check; but on a 200 response whose token field is
absent or empty it raises `UnboundLocalError` rather than returning a
falsy sentinel. -/
theorem C6_amended (r : TokenResponse) :
    (raisesUnbound (get_new_access_token r) = true
       ↔ r.status_code = 200 ∧ (r.access_token = none ∨ r.access_token = some ""))
    ∧ (get_new_access_token r = .refreshFailed ↔ r.status_code ≠ 200) := by
  obtain ⟨sc, ta⟩ := r
  by_cases h200 : sc = 200
  · rcases ta with _ | s
    · simp [get_new_access_token, raisesUnbound, h200]
    · by_cases hs : s = "" <;>
        simp [get_new_access_token, raisesUnbound, h200, hs]
  · rcases ta with _ | s
    all_goals simp [get_new_access_token, raisesUnbound, h200]

/-- Claim C9: `upload_log_to_s3` runs its whole body under a bare
`except Exception` handler, so no error from the file read or the
storage write escapes it; it logs an error exactly when the body
failed, leaving the run's outcome unchanged. -/
theorem C9_log_upload_total (res : Except String Unit) :
    (upload_log_to_s3 res).propagated = none
    ∧ ((upload_log_to_s3 res).loggedError = none ↔ res = .ok ()) := by
  rcases res with u | e
  · cases u
    simp [upload_log_to_s3]
  · simp [upload_log_to_s3]

/-- Claim C2: the normal-termination test is exactly the conjunction
`isLoadComplete` AND zero rows.  A page that reports completion while
still carrying rows does not stop the loop: its rows are appended to the
accumulation exactly once and the loop issues the next fetch; hence in
any later loop exit those rows are present in the result set. -/
theorem C2_complete_page_rows_kept (ts : String) (resp : ApiResponse)
    (recs : List ApiRecord) (datas : List String) (rest : List ApiResponse)
    (toks : List TokenResponse) (tok : String) (overall : List Row)
    (reps fetches : Nat)
    (hst : resp.status_code = 200 ∨ resp.status_code = 201)
    (hrec : resp.records = some recs)
    (hproc : processRecords recs = some datas)
    (hne : datas ≠ [])
    (hcomp : resp.isLoadComplete = true) :
    runLoop ts (resp :: rest) toks tok overall reps fetches
      = runLoop ts rest toks tok (overall ++ pageRows datas true ts)
          reps (fetches + 1)
    ∧ ∀ k ov reps' fetches',
        runLoop ts (resp :: rest) toks tok overall reps fetches
          = .done k ov reps' fetches' →
        ∃ tl, ov = (overall ++ pageRows datas true ts) ++ tl := by
  have h401 : resp.status_code ≠ 401 := by rcases hst with h | h <;> omega
  have hp := pageStep_next ts resp recs datas hst hrec hproc hne
  rw [hcomp] at hp
  have hnem : ¬((pageRows datas true ts).isEmpty = true) := by
    simp [pageRows, hne]
  have heq : runLoop ts (resp :: rest) toks tok overall reps fetches
      = runLoop ts rest toks tok (overall ++ pageRows datas true ts)
          reps (fetches + 1) := by
    rw [runLoop_cons_next ts resp rest toks tok overall reps fetches
      (pageRows datas true ts) h401 hp, if_neg hnem]
  refine ⟨heq, ?_⟩
  intro k ov reps' fetches' hdone
  rw [heq] at hdone
  obtain ⟨⟨tl, htl⟩, _⟩ := runLoop_done_grow ts rest toks tok
    (overall ++ pageRows datas true ts) reps (fetches + 1) k ov reps' fetches' hdone
  exact ⟨tl, htl⟩

/-- Claim C2, witness: a single page carrying one record with
`isLoadComplete = true` does not stop the loop at that page; the row is
appended and the loop fetches again. -/
theorem C2_witness :
    runLoop "T" [⟨200, some [⟨some "d"⟩], true⟩] [] "t" [] 0 0
      = runLoop "T" [] [] "t" ([] ++ pageRows ["d"] true "T") 0 1 :=
  (C2_complete_page_rows_kept "T" ⟨200, some [⟨some "d"⟩], true⟩ [⟨some "d"⟩]
    ["d"] [] [] "t" [] 0 0 (Or.inl rfl) rfl (by decide) (by decide) rfl).1

/-- Claim C3: on a 401 the loop re-authenticates and retries the same
page exactly once.  If the refresh yields a token and the retried fetch
succeeds, that page's rows are appended to the accumulation exactly once
and the loop continues under the new token.  If the retried fetch also
returns 401 the loop breaks with the generic HTTP error, consuming no
further responses; if the refresh yields no credential the loop breaks
at once (`authFail`), likewise consuming no further responses. -/
theorem C3_single_401_retry (ts : String) (r1 : ApiResponse)
    (tr : TokenResponse) (toks' : List TokenResponse) (tok : String)
    (overall : List Row) (reps fetches : Nat)
    (h401 : r1.status_code = 401) :
    (∀ t' r2 rest2 recs datas,
        get_new_access_token tr = .token t' →
        (ApiResponse.status_code r2 = 200 ∨ ApiResponse.status_code r2 = 201) →
        ApiResponse.records r2 = some recs →
        processRecords recs = some datas → datas ≠ [] →
        ¬(ApiResponse.isLoadComplete r2 = true ∧ datas = []) →
        runLoop ts (r1 :: r2 :: rest2) (tr :: toks') tok overall reps fetches
          = runLoop ts rest2 toks' t'
              (overall ++ pageRows datas (ApiResponse.isLoadComplete r2) ts)
              (reps + 1) (fetches + 2))
    ∧ (∀ t' r2 rest2,
        get_new_access_token tr = .token t' →
        ApiResponse.status_code r2 = 401 →
        runLoop ts (r1 :: r2 :: rest2) (tr :: toks') tok overall reps fetches
          = .done .httpError overall (reps + 1) (fetches + 2))
    ∧ (get_new_access_token tr = .refreshFailed →
        ∀ rest, runLoop ts (r1 :: rest) (tr :: toks') tok overall reps fetches
          = .done .authFail overall reps (fetches + 1)) := by
  refine ⟨?_, ?_, ?_⟩
  · intro t' r2 rest2 recs datas ht hst hrec hproc hne _
    have hp := pageStep_next ts r2 recs datas hst hrec hproc hne
    have hnem : ¬((pageRows datas r2.isLoadComplete ts).isEmpty = true) := by
      simp [pageRows, hne]
    rw [runLoop_cons_401_retry_next ts r1 r2 rest2 tr toks' tok t' overall
      reps fetches (pageRows datas r2.isLoadComplete ts) h401 ht hp, if_neg hnem]
  · intro t' r2 rest2 ht hst2
    have hp : pageStep ts r2 = .fatal true := by
      apply pageStep_http
      omega
    exact runLoop_cons_401_retry_fatal ts r1 r2 rest2 tr toks' tok t' overall
      reps fetches true h401 ht hp
  · intro ht rest
    exact runLoop_cons_401_authFail ts r1 rest tr toks' tok overall reps
      fetches h401 ht

/-- Claim C3, witness: page 1 gets a 401, the refresh yields token `t1`,
and the retried fetch returns one record with `isLoadComplete = true`;
the single row is appended exactly once and the loop continues under
`t1`. -/
theorem C3_witness :
    runLoop "T" [⟨401, none, false⟩, ⟨200, some [⟨some "d"⟩], true⟩]
        [⟨200, some "t1"⟩] "t0" [] 0 0
      = runLoop "T" [] [] "t1" ([] ++ pageRows ["d"] true "T") 1 2 :=
  (C3_single_401_retry "T" ⟨401, none, false⟩ ⟨200, some "t1"⟩ [] "t0" [] 0 0
    rfl).1 "t1" ⟨200, some [⟨some "d"⟩], true⟩ [] [⟨some "d"⟩] ["d"]
    (by decide) (Or.inl rfl) rfl (by decide) (by decide) (by decide)

/-- Claim C7: a 2xx/201 data-endpoint response whose body lacks the
nested record path (`root → EmployeeMaster → EmployeeMasterData`) makes
the loop break immediately with the caught-`KeyError` schema exit: the
page is not retried and no element of the remaining trace is consumed
(the result does not depend on `rest` or `toks`). -/
theorem C7_schema_fatal (ts : String) (resp : ApiResponse)
    (rest : List ApiResponse) (toks : List TokenResponse) (tok : String)
    (overall : List Row) (reps fetches : Nat)
    (hst : resp.status_code = 200 ∨ resp.status_code = 201)
    (hrec : resp.records = none) :
    runLoop ts (resp :: rest) toks tok overall reps fetches
      = .done .schemaError overall reps (fetches + 1) := by
  have h401 : resp.status_code ≠ 401 := by rcases hst with h | h <;> omega
  have hp := pageStep_schema ts resp hst hrec
  rw [runLoop_cons_fatal ts resp rest toks tok overall reps fetches false h401 hp]
  rfl

/-- Claim C7, witness: a 200 response with no record container breaks
the loop with the schema exit after exactly one fetch. -/
theorem C7_witness :
    runLoop "T" [⟨200, none, true⟩, ⟨200, some [], true⟩] [] "t" [] 0 0
      = .done .schemaError [] 0 1 :=
  C7_schema_fatal "T" ⟨200, none, true⟩ [⟨200, some [], true⟩] [] "t" [] 0 0
    (Or.inl rfl) rfl

/-- A record container holding some record without the
`BasicDetails → BasicDetail` keys makes the per-record extraction fail. -/
theorem processRecords_eq_none (recs : List ApiRecord)
    (h : ∃ r ∈ recs, ApiRecord.basicDetail r = none) :
    processRecords recs = none := by
  induction recs with
  | nil => simp at h
  | cons a as ih =>
    obtain ⟨r, hr, hnone⟩ := h
    rcases List.mem_cons.mp hr with rfl | hmem
    · simp [processRecords, hnone]
    · rcases habd : a.basicDetail with _ | d
      · simp [processRecords, habd]
      · simp [processRecords, habd, ih ⟨r, hmem, hnone⟩]

/-- Claim C10: the per-record `BasicDetails → BasicDetail` lookup sits
outside the `try/except KeyError` guard.  A 2xx page whose record
container is present but holds a record without those keys makes the
loop crash with the unhandled `KeyError`; lifting that crash through
`make_api_request` and the `__main__` block: the outcome is the crash
(not the logged schema exit), the sink is never invoked, and the
log-upload call is never reached. -/
theorem C10_record_extraction_unguarded (ts : String) :
    (∀ (resp : ApiResponse) (rest : List ApiResponse)
        (toks : List TokenResponse) (tok : String) (overall : List Row)
        (reps fetches : Nat) (recs : List ApiRecord),
        (ApiResponse.status_code resp = 200 ∨ ApiResponse.status_code resp = 201) →
        ApiResponse.records resp = some recs →
        (∃ r ∈ recs, ApiRecord.basicDetail r = none) →
        runLoop ts (resp :: rest) toks tok overall reps fetches = .crashKeyError)
    ∧ (∀ (tr : TokenResponse) (toks' : List TokenResponse) (t : String)
        (apis : List ApiResponse),
        get_new_access_token tr = .token t →
        runLoop ts apis toks' t [] 0 0 = .crashKeyError →
        (make_api_request ts (tr :: toks') apis).outcome = .crashKeyError
        ∧ (make_api_request ts (tr :: toks') apis).sinkWrite = none
        ∧ (script ts (tr :: toks') apis).2 = false
        ∧ (make_api_request ts (tr :: toks') apis).outcome
            ≠ .loopExit .schemaError) := by
  constructor
  · intro resp rest toks tok overall reps fetches recs hst hrec hex
    have h401 : resp.status_code ≠ 401 := by rcases hst with h | h <;> omega
    have hp := pageStep_crash ts resp recs hst hrec (processRecords_eq_none recs hex)
    exact runLoop_cons_crash ts resp rest toks tok overall reps fetches h401 hp
  · intro tr toks' t apis htok hrun
    simp [make_api_request, script, outcomeCrashes, htok, hrun]

/-- Claim C10, witness: a run whose only page is a 200 response with one
record lacking `BasicDetails → BasicDetail` ends in the unhandled
`KeyError` crash, with no sink write and no log upload. -/
theorem C10_witness :
    (make_api_request "T" [⟨200, some "tk"⟩]
        [⟨200, some [⟨none⟩], false⟩]).outcome = .crashKeyError
    ∧ (make_api_request "T" [⟨200, some "tk"⟩]
        [⟨200, some [⟨none⟩], false⟩]).sinkWrite = none
    ∧ (script "T" [⟨200, some "tk"⟩] [⟨200, some [⟨none⟩], false⟩]).2 = false
    ∧ (make_api_request "T" [⟨200, some "tk"⟩]
        [⟨200, some [⟨none⟩], false⟩]).outcome ≠ .loopExit .schemaError :=
  (C10_record_extraction_unguarded "T").2 ⟨200, some "tk"⟩ [] "tk"
    [⟨200, some [⟨none⟩], false⟩] (by decide)
    ((C10_record_extraction_unguarded "T").1 ⟨200, some [⟨none⟩], false⟩ []
      [] "tk" [] 0 0 [⟨none⟩] (Or.inl rfl) rfl ⟨⟨none⟩, by decide, rfl⟩)

/-- Claim C8, counterexample: a run in which two different pages each
answer 401 and each refresh succeeds replaces the credential twice —
the code refreshes on every 401, so the replacement is not bounded by
one per run. -/
theorem C8_cex :
    (make_api_request "T" [⟨200, some "a"⟩, ⟨200, some "b"⟩, ⟨200, some "c"⟩]
        [⟨401, none, false⟩, ⟨200, some [⟨some "d"⟩], false⟩,
         ⟨401, none, false⟩, ⟨200, some [], true⟩]).credReplacements = 2
    ∧ ¬((make_api_request "T" [⟨200, some "a"⟩, ⟨200, some "b"⟩, ⟨200, some "c"⟩]
        [⟨401, none, false⟩, ⟨200, some [⟨some "d"⟩], false⟩,
         ⟨401, none, false⟩, ⟨200, some [], true⟩]).credReplacements ≤ 1) := by
  decide

/-- Claim C8, amended: the credential is replaced reactively at most
once per page fetch — each replacement answers a 401 on some fetch — so
over a whole run the number of replacements is bounded by the number of
fetches issued, not by one. -/
theorem C8_amended (ts : String) (toks : List TokenResponse)
    (apis : List ApiResponse) :
    (make_api_request ts toks apis).credReplacements
      ≤ (make_api_request ts toks apis).apiFetches := by
  rcases toks with _ | ⟨tr, toks'⟩
  · simp [make_api_request]
  · rcases hg : get_new_access_token tr with t | _ | _ <;>
      simp only [make_api_request, hg]
    rcases hr : runLoop ts apis toks' t [] 0 0 with ⟨k, ov, reps', fetches'⟩ | _ | _ | _ <;>
      simp only [hr]
    · obtain ⟨_, hle⟩ := runLoop_done_grow ts apis toks' t [] 0 0 k ov reps' fetches' hr
      omega
    all_goals simp

/-- After `make_api_request`'s loop has ended — by the normal stop or by
any `break` — the final `if not overall_df.empty` hands the full
accumulation to `save_to_s3_parquet` exactly when it is non-empty; runs
that never reach that point (initial-auth failure, uncaught crash) write
nothing. -/
theorem make_api_request_sink_eq (ts : String) (toks : List TokenResponse)
    (apis : List ApiResponse) :
    (make_api_request ts toks apis).sinkWrite
      = if (make_api_request ts toks apis).resultSet = [] then none
        else some (make_api_request ts toks apis).resultSet := by
  rcases toks with _ | ⟨tr, toks'⟩
  · simp [make_api_request]
  · rcases hg : get_new_access_token tr with t | _ | _
    · simp only [make_api_request, hg]
      rcases hr : runLoop ts apis toks' t [] 0 0 with ⟨k', ov, reps', fetches'⟩ | _ | _ | _
      all_goals simp only [hr]
      · by_cases he : ov = []
        · simp [he]
        · simp [he]
      all_goals simp
    · simp [make_api_request, hg]
    · simp [make_api_request, hg]

/-- Claim C1, counterexample: a run whose second page answers 500 (a
fatal non-2xx/non-401 error) still invokes the sink, with the row
accumulated from page 1 — the error `break` falls through to the save
step, so partial rows are written, not discarded. -/
theorem C1_cex :
    (make_api_request "T" [⟨200, some "tk"⟩]
        [⟨200, some [⟨some "d1"⟩], false⟩, ⟨500, none, false⟩]).outcome
      = .loopExit .httpError
    ∧ (make_api_request "T" [⟨200, some "tk"⟩]
        [⟨200, some [⟨some "d1"⟩], false⟩, ⟨500, none, false⟩]).sinkWrite
      = some [⟨"d1", false, "T"⟩] := by
  decide

/-- Claim C1, amended: the final flush is a single write of whatever was
accumulated, but it is NOT skipped on fatal errors: for every run whose
loop ends in any exit (fatal breaks included), the sink receives the full
accumulated result set exactly once when it is non-empty, and nothing
when it is empty.  Rows gathered before a mid-run failure are therefore
written, not discarded; only an empty accumulation (or a failure before
the save step: initial-auth failure or an uncaught crash) leaves the
sink uninvoked. -/
theorem C1_amended_flush_not_atomic (ts : String) (toks : List TokenResponse)
    (apis : List ApiResponse) (k : ExitKind)
    (_h : (make_api_request ts toks apis).outcome = .loopExit k) :
    (make_api_request ts toks apis).sinkWrite
      = if (make_api_request ts toks apis).resultSet = [] then none
        else some (make_api_request ts toks apis).resultSet :=
  make_api_request_sink_eq ts toks apis

/-- Claim C1, witness: the amended rule evaluated on a run that ends in
the fatal HTTP-error break with one accumulated row. -/
theorem C1_amended_witness :
    (make_api_request "T" [⟨200, some "w"⟩]
        [⟨200, some [⟨some "r1"⟩], false⟩, ⟨503, none, false⟩]).sinkWrite
      = if (make_api_request "T" [⟨200, some "w"⟩]
            [⟨200, some [⟨some "r1"⟩], false⟩, ⟨503, none, false⟩]).resultSet = []
        then none
        else some (make_api_request "T" [⟨200, some "w"⟩]
            [⟨200, some [⟨some "r1"⟩], false⟩, ⟨503, none, false⟩]).resultSet :=
  C1_amended_flush_not_atomic "T" [⟨200, some "w"⟩]
    [⟨200, some [⟨some "r1"⟩], false⟩, ⟨503, none, false⟩] .httpError (by decide)

/-- Claim C4: a run whose accumulated result set is empty at loop exit
never invokes the sink (`if not overall_df.empty` skips the save), and a
run that exits the loop normally with a non-empty result set invokes the
sink exactly once, with the full result set. -/
theorem C4_sink_rule (ts : String) (toks : List TokenResponse)
    (apis : List ApiResponse) :
    ((make_api_request ts toks apis).resultSet = [] →
        (make_api_request ts toks apis).sinkWrite = none)
    ∧ ((make_api_request ts toks apis).outcome = .loopExit .normal →
        (make_api_request ts toks apis).resultSet ≠ [] →
        (make_api_request ts toks apis).sinkWrite
          = some (make_api_request ts toks apis).resultSet) := by
  constructor
  · intro he
    rw [make_api_request_sink_eq, if_pos he]
  · intro _ hne
    rw [make_api_request_sink_eq, if_neg hne]

/-- Claim C4, witness: a first page with one record and
`isLoadComplete = true` followed by an empty complete page ends the loop
normally, and the sink is invoked once with that single row; and a run
whose first page is already complete and empty leaves the sink
uninvoked. -/
theorem C4_witness :
    (make_api_request "T" [⟨200, some "tk"⟩]
        [⟨200, some [⟨some "d"⟩], true⟩, ⟨200, some [], true⟩]).sinkWrite
      = some (make_api_request "T" [⟨200, some "tk"⟩]
          [⟨200, some [⟨some "d"⟩], true⟩, ⟨200, some [], true⟩]).resultSet
    ∧ (make_api_request "T" [⟨200, some "tk"⟩] [⟨200, some [], true⟩]).sinkWrite
      = none :=
  ⟨(C4_sink_rule "T" [⟨200, some "tk"⟩]
      [⟨200, some [⟨some "d"⟩], true⟩, ⟨200, some [], true⟩]).2
      (by decide) (by decide),
   (C4_sink_rule "T" [⟨200, some "tk"⟩] [⟨200, some [], true⟩]).1 (by decide)⟩
